import Mathlib

/-!
# Verification of the Orchestrator Core (`src/watchers/orchestrator.py`)

A shallow embedding of the orchestrator's data model and operations:
the `FolderRouter` (prefix routing and seen-file tracking), the
`WatcherManager` (process supervision and crash restart), the `Scheduler`
(daily/weekly triggers), the audit log entries each of them produces, and
the top-level steady-state loop of `main`.

External effects (process launches, `poll()` results, filesystem contents,
wall-clock readings, write failures) are inputs to the embedded functions:
each operation takes the outcome the operating system would deliver and
returns the resulting component state together with the audit entries it
appends.  Python exceptions are modelled with `Except PyErr`; the audit
append itself (`write_audit_log`) is modelled as a total in-memory append,
since its internal parse failure is swallowed in the source.
-/

namespace Orch

/-- One audit entry, as built by `write_audit_log` (orchestrator.py:69-88):
action type, target, result, plus the keyword extras (rendered as strings). -/
structure AuditEntry where
  action_type : String
  target : String
  result : String
  extra : List (String × String) := []
deriving Repr, DecidableEq

/-- A Python exception: either the interrupt signal (`KeyboardInterrupt`)
or an ordinary exception carrying its message. -/
inductive PyErr where
  | keyboardInterrupt
  | exception (msg : String)
deriving Repr, DecidableEq

/-- Constant `DAILY_BRIEFING_HOUR = 20` (orchestrator.py:44). -/
def DAILY_BRIEFING_HOUR : Nat := 20

/-- Constant `WEEKLY_CEO_DAY = 6`, Sunday, with 0 = Monday (orchestrator.py:45). -/
def WEEKLY_CEO_DAY : Nat := 6

/-- The configured watcher descriptors: the keys of `SCRIPTS`
(orchestrator.py:38-42). -/
def watcherNames : List String := ["gmail_watcher", "orders_watcher", "approval_watcher"]

/-- Python's `str.startswith`: character-list prefix test. -/
def pyStartsWith (s pre : String) : Bool :=
  pre.data.isPrefixOf s.data

namespace FolderRouter

/-- Source `FolderRouter._route` (orchestrator.py:172-182): classify a filename by
its prefix; first match wins, unmatched names go to `"unknown"`. -/
def route (filename : String) : String :=
  if pyStartsWith filename "EMAIL_" then "email-responder"
  else if pyStartsWith filename "ORDERS_" || pyStartsWith filename "NEW_ORDERS_" then "order-reader"
  else if pyStartsWith filename "LINKEDIN_" then "linkedin-poster"
  else if pyStartsWith filename "PLAN_" then "plan-creator"
  else "unknown"

/-- One entry of the `Needs_Action` directory listing, as `iterdir` with
`is_file()` sees it. -/
structure DirEntry where
  name : String
  isFile : Bool
deriving Repr, DecidableEq

/-- Router state: the in-memory Seen-File Set (`self.seen_files`, a Python
set of names; membership and insertion are the only operations used, so a
duplicate-free list models it). -/
structure RouterState where
  seen_files : List String
deriving Repr, DecidableEq

/-- Source `FolderRouter._load_seen` / `__init__` (orchestrator.py:152-165): the
persisted store is `some names` when the seen file exists and parses, and
`none` when it is missing or corrupt (both leave the set empty). -/
def load (store : Option (List String)) : RouterState :=
  { seen_files := store.getD [] }

/-- The `for f in NEEDS_ACTION.iterdir()` body of `scan`
(orchestrator.py:189-201): skip entries already seen or not regular files;
otherwise append a `file_detected`/`routed` audit entry naming the routing
label and add the name to the seen set. -/
def scanLoop (seen : List String) (entries : List DirEntry) :
    List String × List AuditEntry :=
  match entries with
  | [] => (seen, [])
  | e :: rest =>
    if e.name ∈ seen ∨ e.isFile = false then scanLoop seen rest
    else
      let entry : AuditEntry :=
        { action_type := "file_detected", target := e.name, result := "routed",
          extra := [("skill", route e.name)] }
      let r := scanLoop (e.name :: seen) rest
      (r.1, entry :: r.2)

/-- The outcome of one `scan` call: the new router state, the list the
seen-file store now holds (`none` when `_save_seen` did not run because the
inbox directory is absent), and the audit entries written. -/
structure ScanResult where
  state : RouterState
  savedStore : Option (List String)
  audit : List AuditEntry
deriving Repr, DecidableEq

/-- Source `FolderRouter.scan` (orchestrator.py:184-203).  `dirExists` is whether
`NEEDS_ACTION.exists()`; `entries` the directory listing; `saveOk` whether
the `_save_seen` write succeeds (a failing write raises `OSError`, which
`scan` does not catch).  Note `scan` takes no dry-run flag: the
`FolderRouter` class has none. -/
def scan (st : RouterState) (dirExists : Bool) (entries : List DirEntry)
    (saveOk : Bool) : Except PyErr ScanResult :=
  if dirExists = false then .ok { state := st, savedStore := none, audit := [] }
  else
    let r := scanLoop st.seen_files entries
    if saveOk then
      .ok { state := { seen_files := r.1 }, savedStore := some r.1, audit := r.2 }
    else .error (.exception "save_seen: OSError")

end FolderRouter

namespace Scheduler

/-- A wall-clock reading, as the scheduler consumes it: `weekday()`
(0 = Monday … 6 = Sunday), `hour`, and the `%Y-%m-%d` date string
returned by `_today()`. -/
structure Clock where
  weekday : Nat
  hour : Nat
  today : String
deriving Repr, DecidableEq

/-- Scheduler state (orchestrator.py:212-213): the last-run markers,
initialised to the empty string, compared by string inequality with
`_today()`. -/
structure SchedState where
  last_daily : String := ""
  last_ceo : String := ""
deriving Repr, DecidableEq

/-- The scheduler's initial state (`__init__`). -/
def SchedState.init : SchedState := {}

/-- Source `Scheduler._should_run_daily` (orchestrator.py:219-224). -/
def should_run_daily (c : Clock) (s : SchedState) : Bool :=
  c.hour == DAILY_BRIEFING_HOUR && s.last_daily != c.today

/-- Source `Scheduler._should_run_ceo` (orchestrator.py:226-232). -/
def should_run_ceo (c : Clock) (s : SchedState) : Bool :=
  c.weekday == WEEKLY_CEO_DAY && c.hour == DAILY_BRIEFING_HOUR && s.last_ceo != c.today

/-- What the `subprocess.run` of the daily renderer delivered: a process
exit code with its stderr, or a raised exception (`TimeoutExpired`,
launch failure, …) — the latter is caught by the `except Exception`
around the whole try block. -/
inductive RunResult where
  | exited (code : Int) (stderr : String)
  | raised (msg : String)
deriving Repr, DecidableEq

/-- Source `Scheduler.run_daily_briefing` (orchestrator.py:234-254).  After the
dry-run shortcut or the try/except around the renderer invocation, the
`_last_daily` marker is set to today's date on every path. -/
def run_daily_briefing (dry_run : Bool) (outcome : RunResult) (c : Clock)
    (s : SchedState) : SchedState × List AuditEntry :=
  if dry_run then ({ s with last_daily := c.today }, [])
  else
    let audit : List AuditEntry :=
      match outcome with
      | .exited 0 _ => [{ action_type := "daily_briefing", target := "daily_summary.py",
                          result := "success" }]
      | .exited _ stderr => [{ action_type := "daily_briefing", target := "daily_summary.py",
                               result := "error", extra := [("stderr", stderr)] }]
      | .raised _ => []
    ({ s with last_daily := c.today }, audit)

/-- The outcome of one `run_ceo_briefing` call: new state, audit entries,
and the names of vault files written outside the logs (the briefing
file). -/
structure CeoResult where
  state : SchedState
  audit : List AuditEntry
  fileWrites : List String
deriving Repr, DecidableEq

/-- Source `Scheduler.run_ceo_briefing` (orchestrator.py:256-316).  The briefing
is generated inline (no external renderer); `writeOk` is whether the
`briefing_file.write_text` succeeds.  A failing write raises before the
`_last_ceo` assignment on line 316, so the marker does not advance on
that path.  In dry run nothing is written and no audit entry appears,
but the marker still advances. -/
def run_ceo_briefing (dry_run : Bool) (writeOk : Bool) (c : Clock)
    (s : SchedState) : Except PyErr CeoResult :=
  if dry_run then .ok { state := { s with last_ceo := c.today }, audit := [], fileWrites := [] }
  else if writeOk then
    .ok { state := { s with last_ceo := c.today },
          audit := [{ action_type := "ceo_briefing", target := c.today ++ "_Monday_Briefing.md",
                      result := "success" }],
          fileWrites := [c.today ++ "_Monday_Briefing.md"] }
  else .error (.exception "write_text: OSError")

/-- Source `Scheduler.tick` (orchestrator.py:318-323): the weekly check runs
first; the daily briefing runs only in the `elif` branch, i.e. when the
weekly trigger did not fire this tick. -/
def tick (dry_run : Bool) (dailyOutcome : RunResult) (ceoWriteOk : Bool)
    (c : Clock) (s : SchedState) : Except PyErr (SchedState × List AuditEntry × List String) :=
  if should_run_ceo c s then
    (run_ceo_briefing dry_run ceoWriteOk c s).map fun r => (r.state, r.audit, r.fileWrites)
  else if should_run_daily c s then
    let r := run_daily_briefing dry_run dailyOutcome c s
    .ok (r.1, r.2, [])
  else .ok (s, [], [])

/-- The simulated clock for the week-long scenario: minute `t` of a week
that starts on a Monday at 00:00; the date string is the day index. -/
def simClock (t : Nat) : Clock :=
  { weekday := (t / 1440) % 7, hour := (t % 1440) / 60, today := toString (t / 1440) }

/-- One simulated minute: run `tick` (renderer succeeding, briefing write
succeeding, no dry run) and record each fired trigger as the pair of the
minute it fired at and its audit action type. -/
def simStep (acc : SchedState × List (Nat × String)) (t : Nat) :
    SchedState × List (Nat × String) :=
  match tick false (.exited 0 "") true (simClock t) acc.1 with
  | .ok (s', es, _) => (s', acc.2 ++ es.map fun e => (t, e.action_type))
  | .error _ => acc

/-- Run the simulation for `len` consecutive minutes starting at minute
`t0`. -/
def simFrom (t0 len : Nat) (acc : SchedState × List (Nat × String)) :
    SchedState × List (Nat × String) :=
  (List.range' t0 len).foldl simStep acc

/-- Drive `tick` once per minute across a full week starting Monday 00:00,
collecting the fired triggers. -/
def simWeekEvents : List (Nat × String) :=
  ((List.range 10080).foldl simStep (SchedState.init, [])).2

end Scheduler

namespace WatcherManager

/-- A supervised child process as the manager sees it: its pid.  Liveness
is observed through `poll()` at each health check, so it is an input to
`check_health`, not part of the stored handle. -/
structure Proc where
  pid : Nat
deriving Repr, DecidableEq

/-- What `subprocess.Popen` delivered when launching a watcher: a running
process, or a raised exception (missing executable, OS rejection). -/
inductive LaunchOutcome where
  | launched (pid : Nat)
  | failed (err : String)
deriving Repr, DecidableEq

/-- Manager state (orchestrator.py:95-97): the dry-run flag and the
`self.processes` dict from watcher name to process, in insertion order. -/
structure WMState where
  dry_run : Bool
  processes : List (String × Proc)
deriving Repr, DecidableEq

/-- Source `WatcherManager.__init__`. -/
def WMState.init (dry_run : Bool) : WMState := { dry_run, processes := [] }

/-- Python dict assignment `self.processes[name] = proc`: update the entry
in place when the key exists, append otherwise. -/
def dictSet (ps : List (String × Proc)) (n : String) (p : Proc) :
    List (String × Proc) :=
  if ps.any (fun kv => kv.1 = n) then
    ps.map fun kv => if kv.1 = n then (n, p) else kv
  else ps ++ [(n, p)]

/-- Source `WatcherManager.start_watcher` (orchestrator.py:99-117).  The dry-run
shortcut returns before touching state or the audit log.  The `Popen` call
sits inside `try/except Exception`, so a launch failure is logged as
`watcher_start_failed`/`error` and leaves `self.processes` untouched;
nothing propagates to the caller. -/
def start_watcher (st : WMState) (name : String) (outcome : LaunchOutcome) :
    WMState × List AuditEntry :=
  if st.dry_run then (st, [])
  else
    match outcome with
    | .launched pid =>
        ({ st with processes := dictSet st.processes name ⟨pid⟩ },
         [{ action_type := "watcher_started", target := name, result := "success",
            extra := [("pid", toString pid)] }])
    | .failed err =>
        (st, [{ action_type := "watcher_start_failed", target := name, result := "error",
                extra := [("error", err)] }])

/-- Source `WatcherManager.check_health` (orchestrator.py:126-136): iterate over a
snapshot of `self.processes.items()`; for each process whose `poll()`
returns an exit code, append a `watcher_crashed`/`restarting` entry with
that exit code and relaunch via `start_watcher`.  `polls` maps a pid to
its `poll()` result (`none` = still running); `launches` gives the launch
outcome for each restarted name.  `healthStep` is the body of the `for`
loop over the `list(self.processes.items())` snapshot; `check_health`
folds it over the snapshot. -/
def healthStep (polls : Nat → Option Int) (launches : String → LaunchOutcome)
    (acc : WMState × List AuditEntry) (kv : String × Proc) :
    WMState × List AuditEntry :=
  match polls kv.2.pid with
  | none => acc
  | some code =>
      let crash : AuditEntry :=
        { action_type := "watcher_crashed", target := kv.1, result := "restarting",
          extra := [("exit_code", toString code)] }
      let r := start_watcher acc.1 kv.1 (launches kv.1)
      (r.1, acc.2 ++ [crash] ++ r.2)

def check_health (st : WMState) (polls : Nat → Option Int)
    (launches : String → LaunchOutcome) : WMState × List AuditEntry :=
  st.processes.foldl (healthStep polls launches) (st, [])

/-- The supervision invariant of §8: the process table holds at most one
handle per descriptor name (its keys are duplicate-free) and only
configured descriptor names. -/
def WMInv (st : WMState) : Prop :=
  (st.processes.map Prod.fst).Nodup ∧ ∀ k ∈ st.processes.map Prod.fst, k ∈ watcherNames

/-- One event in the life of a `WatcherManager`: a `start_watcher` call
(as issued by `start_all`, which only uses names from `SCRIPTS`), or a
`check_health` pass under a given liveness observation. -/
inductive WMEvent where
  | start (name : String) (outcome : LaunchOutcome)
  | health (polls : Nat → Option Int) (launches : String → LaunchOutcome)

/-- Apply one event to the manager state, discarding the audit output. -/
def applyEvent (st : WMState) (e : WMEvent) : WMState :=
  match e with
  | .start name outcome => (start_watcher st name outcome).1
  | .health polls launches => (check_health st polls launches).1

/-- An event is configured when any name it starts is a configured
descriptor name (a key of `SCRIPTS`), as every call site in the source
guarantees. -/
def WMEvent.configured : WMEvent → Prop
  | .start name _ => name ∈ watcherNames
  | .health _ _ => True

/-- Iterate `check_health` with the same liveness observation, as the
crash-recovery scenario does: every process is seen exited with code 1,
every relaunch succeeds with pid 7. -/
def crashLoop (n : Nat) (st : WMState) : WMState × List AuditEntry :=
  match n with
  | 0 => (st, [])
  | m + 1 =>
      let r := check_health st (fun _ => some 1) (fun _ => .launched 7)
      let rest := crashLoop m r.1
      (rest.1, r.2 ++ rest.2)

end WatcherManager

/-! ## The orchestrator steady-state loop (`main`, orchestrator.py:353-373) -/

/-- The mutable state threaded through loop iterations. -/
structure OrchState where
  wm : WatcherManager.WMState
  router : FolderRouter.RouterState
  sched : Scheduler.SchedState
deriving Repr, DecidableEq

/-- Everything the outside world delivers to one loop iteration: `poll()`
results and launch outcomes for the health check, the inbox listing and
seen-file write outcome for the scan, the clock, renderer and briefing
write outcomes for the scheduler tick, and whether `KeyboardInterrupt`
arrives during the iteration's sleep. -/
structure IterEnv where
  polls : Nat → Option Int
  launches : String → WatcherManager.LaunchOutcome
  dirExists : Bool
  entries : List FolderRouter.DirEntry
  saveOk : Bool
  clock : Scheduler.Clock
  dailyOutcome : Scheduler.RunResult
  ceoWriteOk : Bool
  interrupt : Bool

/-- The result of one completed loop iteration: the new state, the audit
entries appended, and the names of vault files written outside the audit
log (the seen-file store and any briefing file). -/
structure IterResult where
  state : OrchState
  audit : List AuditEntry
  fileWrites : List String
deriving Repr, DecidableEq

/-- One iteration of the `while True` body (orchestrator.py:355-367):
health check (unless `--no-watchers`), folder scan, scheduler tick, then
the sleep during which an interrupt may arrive.  Exceptions raised by any
step propagate, exactly as in the source, where the loop body has no
`try/except` of its own. -/
def iteration (noWatchers dry_run : Bool) (env : IterEnv) (st : OrchState) :
    Except PyErr IterResult :=
  let h := if noWatchers then (st.wm, []) else
    WatcherManager.check_health st.wm env.polls env.launches
  match FolderRouter.scan st.router env.dirExists env.entries env.saveOk with
  | .error e => .error e
  | .ok s =>
    match Scheduler.tick dry_run env.dailyOutcome env.ceoWriteOk env.clock st.sched with
    | .error e => .error e
    | .ok t =>
      if env.interrupt then .error .keyboardInterrupt
      else
        .ok { state := { wm := h.1, router := s.state, sched := t.1 },
              audit := h.2 ++ s.audit ++ t.2.1,
              fileWrites := (match s.savedStore with
                | some _ => ["orchestrator_seen_files.json"]
                | none => []) ++ t.2.2 }

/-- How one pass through the loop body ends, given the `try … except
KeyboardInterrupt` wrapper around the whole loop (orchestrator.py:353-373):
the loop continues, or the interrupt is caught and shutdown runs, or any
other exception propagates out of `main` uncaught and the process dies. -/
inductive LoopOutcome where
  | continues (r : IterResult)
  | gracefulStop (st : OrchState)
  | crashed (msg : String)
deriving Repr, DecidableEq

/-- One pass of the steady-state loop: only `KeyboardInterrupt` is caught
(orchestrator.py:369); every other exception escapes. -/
def loopStep (noWatchers dry_run : Bool) (env : IterEnv) (st : OrchState) :
    LoopOutcome :=
  match iteration noWatchers dry_run env st with
  | .ok r => .continues r
  | .error .keyboardInterrupt => .gracefulStop st
  | .error (.exception msg) => .crashed msg

/-- An iteration environment in which every process is healthy, the inbox
holds one new file, the seen-file write fails with `OSError`, no trigger
is due, and no interrupt arrives. -/
def saveFailEnv : IterEnv :=
  { polls := fun _ => none, launches := fun _ => .launched 1,
    dirExists := true, entries := [{ name := "X.md", isFile := true }], saveOk := false,
    clock := { weekday := 0, hour := 0, today := "0" },
    dailyOutcome := .exited 0 "", ceoWriteOk := true, interrupt := false }

/-- An iteration environment for a dry run: one new inbox file, all
filesystem operations succeeding, no trigger due, no interrupt. -/
def dryRunEnv : IterEnv :=
  { polls := fun _ => none, launches := fun _ => .failed "unused",
    dirExists := true, entries := [{ name := "EMAIL_1.md", isFile := true }], saveOk := true,
    clock := { weekday := 0, hour := 0, today := "0" },
    dailyOutcome := .exited 0 "", ceoWriteOk := true, interrupt := false }

/-- A fresh orchestrator state, as `main` builds it before the loop
(empty process table, empty seen set, blank scheduler markers). -/
def startState (dry_run : Bool) : OrchState :=
  { wm := WatcherManager.WMState.init dry_run, router := { seen_files := [] },
    sched := Scheduler.SchedState.init }

/-! ## Theorems -/

/-- C10: the Router's classification is a total function of the filename
alone into the five fixed labels, with earlier prefixes taking precedence:
`EMAIL_` first, then `ORDERS_`/`NEW_ORDERS_`, then `LINKEDIN_`, then
`PLAN_`, and everything else to `unknown`.  (Purity and determinism hold
by construction: `route` is a function of its string argument only.) -/
theorem C10_route_total_classification (s : String) :
    FolderRouter.route s ∈
      (["email-responder", "order-reader", "linkedin-poster", "plan-creator", "unknown"] :
        List String)
    ∧ (pyStartsWith s "EMAIL_" = true → FolderRouter.route s = "email-responder")
    ∧ (pyStartsWith s "EMAIL_" = false →
        (pyStartsWith s "ORDERS_" = true ∨ pyStartsWith s "NEW_ORDERS_" = true) →
        FolderRouter.route s = "order-reader")
    ∧ (pyStartsWith s "EMAIL_" = false → pyStartsWith s "ORDERS_" = false →
        pyStartsWith s "NEW_ORDERS_" = false → pyStartsWith s "LINKEDIN_" = true →
        FolderRouter.route s = "linkedin-poster")
    ∧ (pyStartsWith s "EMAIL_" = false → pyStartsWith s "ORDERS_" = false →
        pyStartsWith s "NEW_ORDERS_" = false → pyStartsWith s "LINKEDIN_" = false →
        pyStartsWith s "PLAN_" = true → FolderRouter.route s = "plan-creator")
    ∧ (pyStartsWith s "EMAIL_" = false → pyStartsWith s "ORDERS_" = false →
        pyStartsWith s "NEW_ORDERS_" = false → pyStartsWith s "LINKEDIN_" = false →
        pyStartsWith s "PLAN_" = false → FolderRouter.route s = "unknown") := by
  refine ⟨?_, ?_, ?_, ?_, ?_, ?_⟩
  · unfold FolderRouter.route; split_ifs <;> simp
  · intro h; simp [FolderRouter.route, h]
  · intro h1 h2
    rcases h2 with h2 | h2 <;> simp [FolderRouter.route, h1, h2]
  · intro h1 h2 h3 h4; simp [FolderRouter.route, h1, h2, h3, h4]
  · intro h1 h2 h3 h4 h5; simp [FolderRouter.route, h1, h2, h3, h4, h5]
  · intro h1 h2 h3 h4 h5; simp [FolderRouter.route, h1, h2, h3, h4, h5]

/-- Witness for C10 at concrete filenames. -/
theorem C10_route_total_classification_witness :
    pyStartsWith "EMAIL_hello.md" "EMAIL_" = true
    ∧ FolderRouter.route "EMAIL_hello.md" = "email-responder" :=
  ⟨by decide, (C10_route_total_classification "EMAIL_hello.md").2.1 (by decide)⟩

/-- C3 fails as stated: neither `ORDER_2026-01-01.md` nor
`MSG_2026-01-01.md` matches any entry of the code's pattern table
(`EMAIL_`, `ORDERS_`, `NEW_ORDERS_`, `LINKEDIN_`, `PLAN_`), so both audit
entries carry the same routing label `"unknown"` — the labels do not
distinguish the order-type file from the message-type file. -/
theorem C3_counterexample :
    FolderRouter.route "ORDER_2026-01-01.md" = "unknown"
    ∧ FolderRouter.route "MSG_2026-01-01.md" = "unknown"
    ∧ FolderRouter.scan { seen_files := [] } true
        [{ name := "ORDER_2026-01-01.md", isFile := true },
         { name := "MSG_2026-01-01.md", isFile := true }] true =
      .ok { state := { seen_files := ["MSG_2026-01-01.md", "ORDER_2026-01-01.md"] },
            savedStore := some ["MSG_2026-01-01.md", "ORDER_2026-01-01.md"],
            audit := [{ action_type := "file_detected", target := "ORDER_2026-01-01.md",
                        result := "routed", extra := [("skill", "unknown")] },
                      { action_type := "file_detected", target := "MSG_2026-01-01.md",
                        result := "routed", extra := [("skill", "unknown")] }] } := by
  refine ⟨by decide, by decide, by rfl⟩

/-- C3 amended: after one `scan()` over the two-file inbox, the Seen-File
Set contains both names and exactly two `file_detected` audit entries with
result `routed` exist — but both carry the routing label `"unknown"`
(neither filename matches the pattern table) — and a second `scan()` with
no filesystem changes produces zero new audit entries. -/
theorem C3_amended_scan_scenario :
    FolderRouter.scan { seen_files := [] } true
        [{ name := "ORDER_2026-01-01.md", isFile := true },
         { name := "MSG_2026-01-01.md", isFile := true }] true =
      .ok { state := { seen_files := ["MSG_2026-01-01.md", "ORDER_2026-01-01.md"] },
            savedStore := some ["MSG_2026-01-01.md", "ORDER_2026-01-01.md"],
            audit := [{ action_type := "file_detected", target := "ORDER_2026-01-01.md",
                        result := "routed", extra := [("skill", "unknown")] },
                      { action_type := "file_detected", target := "MSG_2026-01-01.md",
                        result := "routed", extra := [("skill", "unknown")] }] }
    ∧ "ORDER_2026-01-01.md" ∈ (["MSG_2026-01-01.md", "ORDER_2026-01-01.md"] : List String)
    ∧ "MSG_2026-01-01.md" ∈ (["MSG_2026-01-01.md", "ORDER_2026-01-01.md"] : List String)
    ∧ FolderRouter.scan { seen_files := ["MSG_2026-01-01.md", "ORDER_2026-01-01.md"] } true
        [{ name := "ORDER_2026-01-01.md", isFile := true },
         { name := "MSG_2026-01-01.md", isFile := true }] true =
      .ok { state := { seen_files := ["MSG_2026-01-01.md", "ORDER_2026-01-01.md"] },
            savedStore := some ["MSG_2026-01-01.md", "ORDER_2026-01-01.md"],
            audit := [] } := by
  refine ⟨by rfl, by decide, by decide, by rfl⟩

/-- C6: with the single supervised watcher observed exited (code 1) at
every health check and every relaunch succeeding, 5 consecutive
`check_health` calls produce exactly 5 `watcher_crashed` entries, each
with result `restarting` and the exit code, interleaved with exactly 5
relaunch attempts (`watcher_started` entries) — no backoff, no ceiling. -/
theorem C6_crash_recovery_five_checks :
    ((WatcherManager.crashLoop 5
        { dry_run := false, processes := [("gmail_watcher", { pid := 100 })] }).2.filter
      (fun e => e.action_type == "watcher_crashed")) =
      List.replicate 5
        { action_type := "watcher_crashed", target := "gmail_watcher",
          result := "restarting", extra := [("exit_code", "1")] }
    ∧ ((WatcherManager.crashLoop 5
          { dry_run := false, processes := [("gmail_watcher", { pid := 100 })] }).2.filter
        (fun e => e.action_type == "watcher_started")).length = 5 := by
  refine ⟨by decide, by decide⟩

/-- C8: a failed watcher launch never raises to the caller (the source
wraps `Popen` in `try/except Exception`, so the embedded `start_watcher`
is a total function): the failure is recorded as exactly one
`watcher_start_failed` audit entry with result `error`, and the process
table is untouched — a no-op for that tick. -/
theorem C8_start_failure_logged_no_raise (st : WatcherManager.WMState)
    (name err : String) (h : st.dry_run = false) :
    WatcherManager.start_watcher st name (.failed err) =
      (st, [{ action_type := "watcher_start_failed", target := name, result := "error",
              extra := [("error", err)] }]) := by
  simp [WatcherManager.start_watcher, h]

/-- Witness for C8: a missing-executable launch failure on a fresh
manager. -/
theorem C8_start_failure_logged_no_raise_witness :
    (WatcherManager.WMState.init false).dry_run = false
    ∧ WatcherManager.start_watcher (WatcherManager.WMState.init false) "gmail_watcher"
        (.failed "FileNotFoundError") =
      (WatcherManager.WMState.init false,
       [{ action_type := "watcher_start_failed", target := "gmail_watcher", result := "error",
          extra := [("error", "FileNotFoundError")] }]) :=
  ⟨rfl, C8_start_failure_logged_no_raise (WatcherManager.WMState.init false)
    "gmail_watcher" "FileNotFoundError" rfl⟩

/-- C9 fails as stated: under the dry-run flag the folder scan still
writes — one routing audit entry is appended and the seen-file store is
rewritten — because `FolderRouter` takes no dry-run flag.  The loop
iteration over a one-file inbox with `dry_run = true` performs a
filesystem write beyond the diagnostic log. -/
theorem C9_counterexample :
    loopStep false true dryRunEnv (startState true) =
      .continues
        { state := { wm := { dry_run := true, processes := [] },
                     router := { seen_files := ["EMAIL_1.md"] },
                     sched := { last_daily := "", last_ceo := "" } },
          audit := [{ action_type := "file_detected", target := "EMAIL_1.md",
                      result := "routed", extra := [("skill", "email-responder")] }],
          fileWrites := ["orchestrator_seen_files.json"] } := by
  rfl

/-- C9 amended: dry run does suppress process launches and the scheduled
briefing side effects — `start_watcher` neither launches nor logs,
`run_daily_briefing` invokes no renderer and writes no audit entry, and
`run_ceo_briefing` writes no briefing file and no audit entry (all three
still advance their own state as the source does) — but the folder scan
is not covered by the flag and still writes. -/
theorem C9_amended_dry_run_skips (st : WatcherManager.WMState) (name : String)
    (o : WatcherManager.LaunchOutcome) (ro : Scheduler.RunResult) (w : Bool)
    (c : Scheduler.Clock) (s : Scheduler.SchedState) (h : st.dry_run = true) :
    WatcherManager.start_watcher st name o = (st, [])
    ∧ (Scheduler.run_daily_briefing true ro c s).2 = []
    ∧ Scheduler.run_ceo_briefing true w c s =
        .ok { state := { s with last_ceo := c.today }, audit := [], fileWrites := [] } := by
  refine ⟨by simp [WatcherManager.start_watcher, h], ?_, ?_⟩
  · simp [Scheduler.run_daily_briefing]
  · simp [Scheduler.run_ceo_briefing]

/-- Names already in the seen set stay in it across the scan loop. -/
theorem scanLoop_seen_mono (entries : List FolderRouter.DirEntry) :
    ∀ (seen : List String) (n : String), n ∈ seen →
      n ∈ (FolderRouter.scanLoop seen entries).1 := by
  induction entries with
  | nil => intro seen n h; simpa [FolderRouter.scanLoop] using h
  | cons e rest ih =>
      intro seen n h
      by_cases hc : e.name ∈ seen ∨ e.isFile = false
      · simpa [FolderRouter.scanLoop, if_pos hc] using ih seen n h
      · simpa [FolderRouter.scanLoop, if_neg hc] using
          ih (e.name :: seen) n (List.mem_cons_of_mem _ h)

/-- Every audit entry the scan loop emits targets a name that was not in
the seen set when the loop started. -/
theorem scanLoop_target_fresh (entries : List FolderRouter.DirEntry) :
    ∀ (seen : List String), ∀ a ∈ (FolderRouter.scanLoop seen entries).2,
      a.target ∉ seen := by
  induction entries with
  | nil => intro seen a ha; simp [FolderRouter.scanLoop] at ha
  | cons e rest ih =>
      intro seen a ha
      by_cases hc : e.name ∈ seen ∨ e.isFile = false
      · rw [FolderRouter.scanLoop, if_pos hc] at ha
        exact ih seen a ha
      · rw [FolderRouter.scanLoop, if_neg hc] at ha
        push_neg at hc
        rcases List.mem_cons.mp ha with rfl | ha
        · exact hc.1
        · exact fun hmem => ih (e.name :: seen) a ha (List.mem_cons_of_mem _ hmem)

/-- After the scan loop, every regular file of the listing is in the seen
set. -/
theorem scanLoop_covers (entries : List FolderRouter.DirEntry) :
    ∀ (seen : List String), ∀ e ∈ entries, e.isFile = true →
      e.name ∈ (FolderRouter.scanLoop seen entries).1 := by
  induction entries with
  | nil => intro seen e he; simp at he
  | cons e rest ih =>
      intro seen e' he' hf
      by_cases hc : e.name ∈ seen ∨ e.isFile = false
      · rw [FolderRouter.scanLoop, if_pos hc]
        rcases List.mem_cons.mp he' with rfl | he'
        · rcases hc with hc | hc
          · exact scanLoop_seen_mono rest seen e'.name hc
          · rw [hf] at hc; cases hc
        · exact ih seen e' he' hf
      · rw [FolderRouter.scanLoop, if_neg hc]
        rcases List.mem_cons.mp he' with rfl | he'
        · exact scanLoop_seen_mono rest (e'.name :: seen) e'.name (List.mem_cons_self _ _)
        · exact ih (e.name :: seen) e' he' hf

/-- A scan loop over a listing whose regular files are all already seen
changes nothing and emits nothing. -/
theorem scanLoop_stable (entries : List FolderRouter.DirEntry) :
    ∀ (seen : List String), (∀ e ∈ entries, e.isFile = true → e.name ∈ seen) →
      FolderRouter.scanLoop seen entries = (seen, []) := by
  induction entries with
  | nil => intro seen _; rfl
  | cons e rest ih =>
      intro seen h
      have hc : e.name ∈ seen ∨ e.isFile = false := by
        cases hf : e.isFile
        · exact Or.inr rfl
        · exact Or.inl (h e (List.mem_cons_self _ _) hf)
      rw [FolderRouter.scanLoop, if_pos hc]
      exact ih seen fun e' he' hf => h e' (List.mem_cons_of_mem _ he') hf

/-- C4: a name already in the Seen-File Set is never routed again by
`scan()` — no audit entry the scan emits targets it, it remains in the
in-memory set, it is in whatever list `_save_seen` persisted (so a
restarted Router that reloads that store also holds it), and replaying
the identical directory snapshot through `scan()` a second time produces
zero audit entries. -/
theorem C4_seen_file_never_rerouted (st : FolderRouter.RouterState) (dirExists : Bool)
    (entries : List FolderRouter.DirEntry) (saveOk : Bool) (name : String)
    (r : FolderRouter.ScanResult) (hname : name ∈ st.seen_files)
    (hr : FolderRouter.scan st dirExists entries saveOk = .ok r) :
    (∀ a ∈ r.audit, a.target ≠ name)
    ∧ name ∈ r.state.seen_files
    ∧ (∀ l, r.savedStore = some l → name ∈ (FolderRouter.load (some l)).seen_files)
    ∧ (∀ r2, FolderRouter.scan r.state dirExists entries true = .ok r2 →
        r2.audit = []) := by
  unfold FolderRouter.scan at hr
  by_cases hd : dirExists = false
  · rw [if_pos hd] at hr
    injection hr with hr
    subst hr
    refine ⟨by intro a ha; simp at ha, hname, by intro l hl; simp at hl, ?_⟩
    intro r2 hr2
    unfold FolderRouter.scan at hr2
    rw [if_pos hd] at hr2
    injection hr2 with hr2
    subst hr2
    rfl
  · rw [if_neg hd] at hr
    by_cases hs : saveOk = true
    · rw [hs, if_pos rfl] at hr
      injection hr with hr
      subst hr
      refine ⟨?_, ?_, ?_, ?_⟩
      · intro a ha hEq
        exact scanLoop_target_fresh entries st.seen_files a ha (hEq ▸ hname)
      · exact scanLoop_seen_mono entries st.seen_files name hname
      · intro l hl
        injection hl with hl
        subst hl
        exact scanLoop_seen_mono entries st.seen_files name hname
      · intro r2 hr2
        unfold FolderRouter.scan at hr2
        rw [if_neg hd, if_pos rfl] at hr2
        rw [scanLoop_stable entries _ (fun e he hf => scanLoop_covers entries st.seen_files e he hf)] at hr2
        injection hr2 with hr2
        subst hr2
        rfl
    · rw [eq_false_of_ne_true hs, if_neg (by simp)] at hr
      cases hr

/-- Witness for C4: with `A.md` already seen and an inbox holding `A.md`
and `B.md`, the scan keeps `A.md` in the seen set. -/
theorem C4_seen_file_never_rerouted_witness :
    "A.md" ∈ (FolderRouter.ScanResult.mk { seen_files := ["B.md", "A.md"] }
      (some ["B.md", "A.md"])
      [{ action_type := "file_detected", target := "B.md", result := "routed",
         extra := [("skill", "unknown")] }]).state.seen_files :=
  (C4_seen_file_never_rerouted { seen_files := ["A.md"] } true
    [{ name := "A.md", isFile := true }, { name := "B.md", isFile := true }] true
    "A.md" _ (by decide) (by rfl)).2.1

/-- The keys of the process table after a dict assignment: unchanged when
the key was present, extended by the new key otherwise. -/
theorem dictSet_keys (ps : List (String × WatcherManager.Proc)) (n : String)
    (p : WatcherManager.Proc) :
    (WatcherManager.dictSet ps n p).map Prod.fst =
      if ps.any (fun kv => kv.1 = n) then ps.map Prod.fst
      else ps.map Prod.fst ++ [n] := by
  unfold WatcherManager.dictSet
  split_ifs with h
  · rw [List.map_map]
    apply List.map_congr_left
    intro kv _
    by_cases hk : kv.1 = n <;> simp [hk]
  · simp

/-- A dict assignment with a configured key preserves the supervision
invariant. -/
theorem dictSet_inv (st : WatcherManager.WMState) (n : String)
    (p : WatcherManager.Proc) (hI : WatcherManager.WMInv st)
    (hn : n ∈ watcherNames) :
    WatcherManager.WMInv { st with processes := WatcherManager.dictSet st.processes n p } := by
  obtain ⟨hnd, hsub⟩ := hI
  constructor
  · rw [dictSet_keys]
    split_ifs with h
    · exact hnd
    · rw [List.nodup_append]
      refine ⟨hnd, List.nodup_singleton n, ?_⟩
      intro a ha hb
      rcases List.mem_singleton.mp hb with rfl
      simp only [List.any_eq_true, decide_eq_true_eq] at h
      obtain ⟨kv, hkv, rfl⟩ := List.mem_map.mp ha
      exact h ⟨kv, hkv, rfl⟩
  · intro k hk
    rw [dictSet_keys] at hk
    split_ifs at hk with h
    · exact hsub k hk
    · rcases List.mem_append.mp hk with hk | hk
      · exact hsub k hk
      · rcases List.mem_singleton.mp hk with rfl
        exact hn

/-- Starting a configured watcher preserves the supervision invariant,
whatever the launch outcome. -/
theorem start_watcher_inv (st : WatcherManager.WMState) (name : String)
    (o : WatcherManager.LaunchOutcome) (hI : WatcherManager.WMInv st)
    (hn : name ∈ watcherNames) :
    WatcherManager.WMInv (WatcherManager.start_watcher st name o).1 := by
  unfold WatcherManager.start_watcher
  split_ifs with hd
  · exact hI
  · cases o with
    | launched pid => exact dictSet_inv st name { pid := pid } hI hn
    | failed err => exact hI

/-- One health-loop step over a configured snapshot entry preserves the
supervision invariant. -/
theorem healthStep_inv (polls : Nat → Option Int)
    (launches : String → WatcherManager.LaunchOutcome)
    (acc : WatcherManager.WMState × List AuditEntry)
    (kv : String × WatcherManager.Proc) (hI : WatcherManager.WMInv acc.1)
    (hkv : kv.1 ∈ watcherNames) :
    WatcherManager.WMInv (WatcherManager.healthStep polls launches acc kv).1 := by
  unfold WatcherManager.healthStep
  cases polls kv.2.pid with
  | none => exact hI
  | some code => exact start_watcher_inv acc.1 kv.1 (launches kv.1) hI hkv

/-- Folding the health loop over any snapshot of configured entries
preserves the supervision invariant. -/
theorem health_fold_inv (polls : Nat → Option Int)
    (launches : String → WatcherManager.LaunchOutcome)
    (kvs : List (String × WatcherManager.Proc)) :
    ∀ (acc : WatcherManager.WMState × List AuditEntry),
      WatcherManager.WMInv acc.1 → (∀ kv ∈ kvs, kv.1 ∈ watcherNames) →
      WatcherManager.WMInv
        (kvs.foldl (WatcherManager.healthStep polls launches) acc).1 := by
  induction kvs with
  | nil => intro acc hI _; exact hI
  | cons kv rest ih =>
      intro acc hI hks
      rw [List.foldl_cons]
      exact ih _ (healthStep_inv polls launches acc kv hI
          (hks kv (List.mem_cons_self _ _)))
        fun kv' hkv' => hks kv' (List.mem_cons_of_mem _ hkv')

/-- A whole `check_health` pass preserves the supervision invariant. -/
theorem check_health_inv (st : WatcherManager.WMState)
    (polls : Nat → Option Int)
    (launches : String → WatcherManager.LaunchOutcome)
    (hI : WatcherManager.WMInv st) :
    WatcherManager.WMInv (WatcherManager.check_health st polls launches).1 := by
  unfold WatcherManager.check_health
  refine health_fold_inv polls launches st.processes (st, []) hI ?_
  intro kv hkv
  exact hI.2 kv.1 (List.mem_map.mpr ⟨kv, hkv, rfl⟩)

/-- Any configured event preserves the supervision invariant. -/
theorem applyEvent_inv (st : WatcherManager.WMState) (e : WatcherManager.WMEvent)
    (hI : WatcherManager.WMInv st) (he : e.configured) :
    WatcherManager.WMInv (WatcherManager.applyEvent st e) := by
  cases e with
  | start name o => exact start_watcher_inv st name o hI he
  | health polls launches => exact check_health_inv st polls launches hI

/-- C5: across every sequence of configured start and health-check events
from the initial (empty) manager state, the process table holds at most
one handle per descriptor (its keys are duplicate-free), and the number
of handles never exceeds the number of configured descriptors. -/
theorem C5_at_most_one_handle_per_descriptor (events : List WatcherManager.WMEvent)
    (dry_run : Bool) (h : ∀ e ∈ events, e.configured) :
    (((events.foldl WatcherManager.applyEvent
        (WatcherManager.WMState.init dry_run)).processes.map Prod.fst).Nodup)
    ∧ (events.foldl WatcherManager.applyEvent
        (WatcherManager.WMState.init dry_run)).processes.length ≤
      watcherNames.length := by
  have hI : WatcherManager.WMInv
      (events.foldl WatcherManager.applyEvent (WatcherManager.WMState.init dry_run)) := by
    have main : ∀ (es : List WatcherManager.WMEvent) (st : WatcherManager.WMState),
        WatcherManager.WMInv st → (∀ e ∈ es, e.configured) →
        WatcherManager.WMInv (es.foldl WatcherManager.applyEvent st) := by
      intro es
      induction es with
      | nil => intro st hI _; exact hI
      | cons e rest ih =>
          intro st hI hes
          rw [List.foldl_cons]
          exact ih _ (applyEvent_inv st e hI (hes e (List.mem_cons_self _ _)))
            fun e' he' => hes e' (List.mem_cons_of_mem _ he')
    exact main events _
      ⟨List.nodup_nil, by intro k hk; simp [WatcherManager.WMState.init] at hk⟩ h
  refine ⟨hI.1, ?_⟩
  have hlen : ((events.foldl WatcherManager.applyEvent
      (WatcherManager.WMState.init dry_run)).processes.map Prod.fst).length ≤
      watcherNames.length :=
    (List.subperm_of_subset hI.1 fun k hk => hI.2 k hk).length_le
  simpa using hlen

/-- Witness for C5: a start, a health check that sees the process dead
and restarts it, and a redundant start of the same descriptor leave one
handle, within the three-descriptor bound. -/
theorem C5_at_most_one_handle_per_descriptor_witness :
    ((([WatcherManager.WMEvent.start "gmail_watcher" (.launched 50),
        WatcherManager.WMEvent.health (fun _ => some 2) (fun _ => .launched 51),
        WatcherManager.WMEvent.start "gmail_watcher" (.launched 52)].foldl
          WatcherManager.applyEvent
          (WatcherManager.WMState.init false)).processes.map Prod.fst).Nodup)
    ∧ ([WatcherManager.WMEvent.start "gmail_watcher" (.launched 50),
        WatcherManager.WMEvent.health (fun _ => some 2) (fun _ => .launched 51),
        WatcherManager.WMEvent.start "gmail_watcher" (.launched 52)].foldl
          WatcherManager.applyEvent
          (WatcherManager.WMState.init false)).processes.length ≤
      watcherNames.length := by
  refine C5_at_most_one_handle_per_descriptor _ false ?_
  intro e he
  rcases List.mem_cons.mp he with rfl | he
  · simp [WatcherManager.WMEvent.configured, watcherNames]
  rcases List.mem_cons.mp he with rfl | he
  · trivial
  rcases List.mem_cons.mp he with rfl | he
  · simp [WatcherManager.WMEvent.configured, watcherNames]
  · cases he

/-- C7 fails as stated for the weekly trigger: when the weekly trigger is
eligible and fires but the briefing write raises, `tick` propagates the
exception and the `_last_ceo` assignment on line 316 never executes — no
state with an advanced marker is produced, so the marker is not advanced
unconditionally. -/
theorem C7_counterexample :
    Scheduler.should_run_ceo { weekday := 6, hour := 20, today := "7" }
      { last_daily := "", last_ceo := "" } = true
    ∧ Scheduler.tick false (.exited 0 "") false { weekday := 6, hour := 20, today := "7" }
        { last_daily := "", last_ceo := "" } =
      .error (.exception "write_text: OSError") :=
  ⟨by decide, by rfl⟩

/-- C7 amended: the daily trigger's marker is advanced unconditionally —
for every renderer outcome (exit 0, nonzero exit, timeout or any other
raised exception) and in dry run — after which the daily trigger is no
longer eligible today; the weekly trigger advances its marker (and then
stops being eligible today) exactly when the briefing write succeeds or
the run is dry, and propagates the write's exception otherwise, leaving
the marker untouched. -/
theorem C7_amended_marker_advance (dry_run : Bool) (o : Scheduler.RunResult)
    (c : Scheduler.Clock) (s : Scheduler.SchedState) :
    (Scheduler.run_daily_briefing dry_run o c s).1.last_daily = c.today
    ∧ Scheduler.should_run_daily c (Scheduler.run_daily_briefing dry_run o c s).1 = false
    ∧ (∀ writeOk, writeOk = true ∨ dry_run = true →
        ∃ r, Scheduler.run_ceo_briefing dry_run writeOk c s = .ok r
          ∧ r.state.last_ceo = c.today
          ∧ Scheduler.should_run_ceo c r.state = false)
    ∧ (dry_run = false →
        Scheduler.run_ceo_briefing dry_run false c s =
          .error (.exception "write_text: OSError")) := by
  refine ⟨?_, ?_, ?_, ?_⟩
  · unfold Scheduler.run_daily_briefing
    split_ifs <;> rfl
  · unfold Scheduler.should_run_daily Scheduler.run_daily_briefing
    split_ifs <;> simp
  · intro writeOk hw
    unfold Scheduler.run_ceo_briefing
    by_cases hd : dry_run = true
    · rw [if_pos hd]
      exact ⟨_, rfl, rfl, by simp [Scheduler.should_run_ceo]⟩
    · have hwt : writeOk = true := by
        rcases hw with hw | hw
        · exact hw
        · exact absurd hw hd
      rw [if_neg hd, hwt, if_pos rfl]
      exact ⟨_, rfl, rfl, by simp [Scheduler.should_run_ceo]⟩
  · intro hd
    unfold Scheduler.run_ceo_briefing
    rw [hd]
    rfl

/-- Witness for C7 amended: a timed-out renderer still advances the daily
marker. -/
theorem C7_amended_marker_advance_witness :
    (Scheduler.run_daily_briefing false (.raised "TimeoutExpired")
      { weekday := 2, hour := 20, today := "3" }
      { last_daily := "2", last_ceo := "0" }).1.last_daily = "3" :=
  (C7_amended_marker_advance false (.raised "TimeoutExpired")
    { weekday := 2, hour := 20, today := "3" }
    { last_daily := "2", last_ceo := "0" }).1

/-- C1 fails as stated: an error raised inside a loop iteration is not
always caught — with every watcher healthy, one new inbox file and a
seen-file save that raises `OSError`, the iteration's exception passes the
`except KeyboardInterrupt` handler uncaught and the loop terminates as a
crash instead of continuing. -/
theorem C1_counterexample :
    loopStep false false saveFailEnv (startState false) =
      .crashed "save_seen: OSError" := by
  rfl

/-- C1 amended: the loop's `try` catches only `KeyboardInterrupt`.  When
the iteration's own filesystem writes succeed (seen-file save, briefing
write), every other per-iteration error — watcher launch failures and
daily-renderer failures of any kind, which are caught inside their
components — leaves the iteration successful, and the loop continues
unless the interrupt arrives, which ends it gracefully.  Errors raised by
the uncovered writes escape the loop (see the counterexample). -/
theorem C1_amended_loop_continues (noWatchers dry_run : Bool) (env : IterEnv)
    (st : OrchState) (hs : env.saveOk = true) (hc : env.ceoWriteOk = true) :
    (env.interrupt = true → loopStep noWatchers dry_run env st = .gracefulStop st)
    ∧ (env.interrupt = false → ∃ r, loopStep noWatchers dry_run env st = .continues r) := by
  obtain ⟨sr, hsr⟩ : ∃ sr, FolderRouter.scan st.router env.dirExists env.entries env.saveOk
      = .ok sr := by
    unfold FolderRouter.scan
    rw [hs]
    by_cases hd : env.dirExists = false
    · rw [if_pos hd]; exact ⟨_, rfl⟩
    · rw [if_neg hd, if_pos rfl]; exact ⟨_, rfl⟩
  obtain ⟨tr, htr⟩ : ∃ tr, Scheduler.tick dry_run env.dailyOutcome env.ceoWriteOk
      env.clock st.sched = .ok tr := by
    unfold Scheduler.tick Scheduler.run_ceo_briefing
    rw [hc]
    by_cases hceo : Scheduler.should_run_ceo env.clock st.sched = true
    · rw [if_pos hceo]
      by_cases hd : dry_run = true
      · rw [if_pos hd]; exact ⟨_, rfl⟩
      · rw [if_neg hd, if_pos rfl]; exact ⟨_, rfl⟩
    · rw [if_neg hceo]
      by_cases hdaily : Scheduler.should_run_daily env.clock st.sched = true
      · rw [if_pos hdaily]; exact ⟨_, rfl⟩
      · rw [if_neg hdaily]; exact ⟨_, rfl⟩
  constructor
  · intro hi
    unfold loopStep iteration
    rw [hsr, htr, hi]
    rfl
  · intro hi
    unfold loopStep iteration
    rw [hsr, htr, hi]
    exact ⟨_, rfl⟩

/-- Witness for C1 amended: with all writes succeeding, a failed watcher
relaunch and a crashed renderer do not end the loop. -/
theorem C1_amended_loop_continues_witness :
    dryRunEnv.saveOk = true ∧ dryRunEnv.ceoWriteOk = true
    ∧ (dryRunEnv.interrupt = false →
        ∃ r, loopStep false false dryRunEnv (startState false) = .continues r) :=
  ⟨rfl, rfl,
    (C1_amended_loop_continues false false dryRunEnv (startState false) rfl rfl).2⟩

set_option maxRecDepth 100000

/-- Helper for C2: evaluating the minute-by-minute week simulation in
segments.  Splitting a simulation run at an intermediate minute. -/
theorem simFrom_split (t0 m n : Nat) (acc : Scheduler.SchedState × List (Nat × String)) :
    Scheduler.simFrom t0 (n + m) acc =
      Scheduler.simFrom (t0 + m) n (Scheduler.simFrom t0 m acc) := by
  unfold Scheduler.simFrom
  rw [← List.range'_append t0 m n 1, List.foldl_append, Nat.one_mul]

/-- Helper for C2: the full list of triggers fired across the simulated
week — dailies at 20:00 of days 0-5, the weekly at Sunday 20:00 (minute
9840), and a daily at Sunday 20:01 (minute 9841). -/
theorem simWeekEvents_eval :
    Scheduler.simWeekEvents = [(1200, "daily_briefing"), (2640, "daily_briefing"), (4080, "daily_briefing"), (5520, "daily_briefing"), (6960, "daily_briefing"), (8400, "daily_briefing"), (9840, "ceo_briefing"), (9841, "daily_briefing")] := by
  have h0 : Scheduler.simWeekEvents =
      (Scheduler.simFrom 0 10080 (Scheduler.SchedState.init, [])).2 := by
    unfold Scheduler.simWeekEvents Scheduler.simFrom
    rw [List.range_eq_range']
  rw [h0]
  have c1 : Scheduler.simFrom 0 10080 (Scheduler.SchedState.init, ([] : List (Nat × String))) =
      Scheduler.simFrom 630 9450 (({ last_daily := "", last_ceo := "" } : Orch.Scheduler.SchedState), ([] : List (Nat × String))) := by
    have h := simFrom_split 0 630 9450 (Scheduler.SchedState.init, ([] : List (Nat × String)))
    norm_num at h
    exact h.trans (congrArg (Scheduler.simFrom 630 9450) (by rfl))
  rw [c1]
  have c2 : Scheduler.simFrom 630 9450 (({ last_daily := "", last_ceo := "" } : Orch.Scheduler.SchedState), ([] : List (Nat × String))) =
      Scheduler.simFrom 1260 8820 (({ last_daily := "0", last_ceo := "" } : Orch.Scheduler.SchedState), ([(1200, "daily_briefing")] : List (Nat × String))) := by
    have h := simFrom_split 630 630 8820 (({ last_daily := "", last_ceo := "" } : Orch.Scheduler.SchedState), ([] : List (Nat × String)))
    norm_num at h
    exact h.trans (congrArg (Scheduler.simFrom 1260 8820) (by rfl))
  rw [c2]
  have c3 : Scheduler.simFrom 1260 8820 (({ last_daily := "0", last_ceo := "" } : Orch.Scheduler.SchedState), ([(1200, "daily_briefing")] : List (Nat × String))) =
      Scheduler.simFrom 1890 8190 (({ last_daily := "0", last_ceo := "" } : Orch.Scheduler.SchedState), ([(1200, "daily_briefing")] : List (Nat × String))) := by
    have h := simFrom_split 1260 630 8190 (({ last_daily := "0", last_ceo := "" } : Orch.Scheduler.SchedState), ([(1200, "daily_briefing")] : List (Nat × String)))
    norm_num at h
    exact h.trans (congrArg (Scheduler.simFrom 1890 8190) (by rfl))
  rw [c3]
  have c4 : Scheduler.simFrom 1890 8190 (({ last_daily := "0", last_ceo := "" } : Orch.Scheduler.SchedState), ([(1200, "daily_briefing")] : List (Nat × String))) =
      Scheduler.simFrom 2520 7560 (({ last_daily := "0", last_ceo := "" } : Orch.Scheduler.SchedState), ([(1200, "daily_briefing")] : List (Nat × String))) := by
    have h := simFrom_split 1890 630 7560 (({ last_daily := "0", last_ceo := "" } : Orch.Scheduler.SchedState), ([(1200, "daily_briefing")] : List (Nat × String)))
    norm_num at h
    exact h.trans (congrArg (Scheduler.simFrom 2520 7560) (by rfl))
  rw [c4]
  have c5 : Scheduler.simFrom 2520 7560 (({ last_daily := "0", last_ceo := "" } : Orch.Scheduler.SchedState), ([(1200, "daily_briefing")] : List (Nat × String))) =
      Scheduler.simFrom 3150 6930 (({ last_daily := "1", last_ceo := "" } : Orch.Scheduler.SchedState), ([(1200, "daily_briefing"), (2640, "daily_briefing")] : List (Nat × String))) := by
    have h := simFrom_split 2520 630 6930 (({ last_daily := "0", last_ceo := "" } : Orch.Scheduler.SchedState), ([(1200, "daily_briefing")] : List (Nat × String)))
    norm_num at h
    exact h.trans (congrArg (Scheduler.simFrom 3150 6930) (by rfl))
  rw [c5]
  have c6 : Scheduler.simFrom 3150 6930 (({ last_daily := "1", last_ceo := "" } : Orch.Scheduler.SchedState), ([(1200, "daily_briefing"), (2640, "daily_briefing")] : List (Nat × String))) =
      Scheduler.simFrom 3780 6300 (({ last_daily := "1", last_ceo := "" } : Orch.Scheduler.SchedState), ([(1200, "daily_briefing"), (2640, "daily_briefing")] : List (Nat × String))) := by
    have h := simFrom_split 3150 630 6300 (({ last_daily := "1", last_ceo := "" } : Orch.Scheduler.SchedState), ([(1200, "daily_briefing"), (2640, "daily_briefing")] : List (Nat × String)))
    norm_num at h
    exact h.trans (congrArg (Scheduler.simFrom 3780 6300) (by rfl))
  rw [c6]
  have c7 : Scheduler.simFrom 3780 6300 (({ last_daily := "1", last_ceo := "" } : Orch.Scheduler.SchedState), ([(1200, "daily_briefing"), (2640, "daily_briefing")] : List (Nat × String))) =
      Scheduler.simFrom 4410 5670 (({ last_daily := "2", last_ceo := "" } : Orch.Scheduler.SchedState), ([(1200, "daily_briefing"), (2640, "daily_briefing"), (4080, "daily_briefing")] : List (Nat × String))) := by
    have h := simFrom_split 3780 630 5670 (({ last_daily := "1", last_ceo := "" } : Orch.Scheduler.SchedState), ([(1200, "daily_briefing"), (2640, "daily_briefing")] : List (Nat × String)))
    norm_num at h
    exact h.trans (congrArg (Scheduler.simFrom 4410 5670) (by rfl))
  rw [c7]
  have c8 : Scheduler.simFrom 4410 5670 (({ last_daily := "2", last_ceo := "" } : Orch.Scheduler.SchedState), ([(1200, "daily_briefing"), (2640, "daily_briefing"), (4080, "daily_briefing")] : List (Nat × String))) =
      Scheduler.simFrom 5040 5040 (({ last_daily := "2", last_ceo := "" } : Orch.Scheduler.SchedState), ([(1200, "daily_briefing"), (2640, "daily_briefing"), (4080, "daily_briefing")] : List (Nat × String))) := by
    have h := simFrom_split 4410 630 5040 (({ last_daily := "2", last_ceo := "" } : Orch.Scheduler.SchedState), ([(1200, "daily_briefing"), (2640, "daily_briefing"), (4080, "daily_briefing")] : List (Nat × String)))
    norm_num at h
    exact h.trans (congrArg (Scheduler.simFrom 5040 5040) (by rfl))
  rw [c8]
  have c9 : Scheduler.simFrom 5040 5040 (({ last_daily := "2", last_ceo := "" } : Orch.Scheduler.SchedState), ([(1200, "daily_briefing"), (2640, "daily_briefing"), (4080, "daily_briefing")] : List (Nat × String))) =
      Scheduler.simFrom 5670 4410 (({ last_daily := "3", last_ceo := "" } : Orch.Scheduler.SchedState), ([(1200, "daily_briefing"), (2640, "daily_briefing"), (4080, "daily_briefing"), (5520, "daily_briefing")] : List (Nat × String))) := by
    have h := simFrom_split 5040 630 4410 (({ last_daily := "2", last_ceo := "" } : Orch.Scheduler.SchedState), ([(1200, "daily_briefing"), (2640, "daily_briefing"), (4080, "daily_briefing")] : List (Nat × String)))
    norm_num at h
    exact h.trans (congrArg (Scheduler.simFrom 5670 4410) (by rfl))
  rw [c9]
  have c10 : Scheduler.simFrom 5670 4410 (({ last_daily := "3", last_ceo := "" } : Orch.Scheduler.SchedState), ([(1200, "daily_briefing"), (2640, "daily_briefing"), (4080, "daily_briefing"), (5520, "daily_briefing")] : List (Nat × String))) =
      Scheduler.simFrom 6300 3780 (({ last_daily := "3", last_ceo := "" } : Orch.Scheduler.SchedState), ([(1200, "daily_briefing"), (2640, "daily_briefing"), (4080, "daily_briefing"), (5520, "daily_briefing")] : List (Nat × String))) := by
    have h := simFrom_split 5670 630 3780 (({ last_daily := "3", last_ceo := "" } : Orch.Scheduler.SchedState), ([(1200, "daily_briefing"), (2640, "daily_briefing"), (4080, "daily_briefing"), (5520, "daily_briefing")] : List (Nat × String)))
    norm_num at h
    exact h.trans (congrArg (Scheduler.simFrom 6300 3780) (by rfl))
  rw [c10]
  have c11 : Scheduler.simFrom 6300 3780 (({ last_daily := "3", last_ceo := "" } : Orch.Scheduler.SchedState), ([(1200, "daily_briefing"), (2640, "daily_briefing"), (4080, "daily_briefing"), (5520, "daily_briefing")] : List (Nat × String))) =
      Scheduler.simFrom 6930 3150 (({ last_daily := "3", last_ceo := "" } : Orch.Scheduler.SchedState), ([(1200, "daily_briefing"), (2640, "daily_briefing"), (4080, "daily_briefing"), (5520, "daily_briefing")] : List (Nat × String))) := by
    have h := simFrom_split 6300 630 3150 (({ last_daily := "3", last_ceo := "" } : Orch.Scheduler.SchedState), ([(1200, "daily_briefing"), (2640, "daily_briefing"), (4080, "daily_briefing"), (5520, "daily_briefing")] : List (Nat × String)))
    norm_num at h
    exact h.trans (congrArg (Scheduler.simFrom 6930 3150) (by rfl))
  rw [c11]
  have c12 : Scheduler.simFrom 6930 3150 (({ last_daily := "3", last_ceo := "" } : Orch.Scheduler.SchedState), ([(1200, "daily_briefing"), (2640, "daily_briefing"), (4080, "daily_briefing"), (5520, "daily_briefing")] : List (Nat × String))) =
      Scheduler.simFrom 7560 2520 (({ last_daily := "4", last_ceo := "" } : Orch.Scheduler.SchedState), ([(1200, "daily_briefing"), (2640, "daily_briefing"), (4080, "daily_briefing"), (5520, "daily_briefing"), (6960, "daily_briefing")] : List (Nat × String))) := by
    have h := simFrom_split 6930 630 2520 (({ last_daily := "3", last_ceo := "" } : Orch.Scheduler.SchedState), ([(1200, "daily_briefing"), (2640, "daily_briefing"), (4080, "daily_briefing"), (5520, "daily_briefing")] : List (Nat × String)))
    norm_num at h
    exact h.trans (congrArg (Scheduler.simFrom 7560 2520) (by rfl))
  rw [c12]
  have c13 : Scheduler.simFrom 7560 2520 (({ last_daily := "4", last_ceo := "" } : Orch.Scheduler.SchedState), ([(1200, "daily_briefing"), (2640, "daily_briefing"), (4080, "daily_briefing"), (5520, "daily_briefing"), (6960, "daily_briefing")] : List (Nat × String))) =
      Scheduler.simFrom 8190 1890 (({ last_daily := "4", last_ceo := "" } : Orch.Scheduler.SchedState), ([(1200, "daily_briefing"), (2640, "daily_briefing"), (4080, "daily_briefing"), (5520, "daily_briefing"), (6960, "daily_briefing")] : List (Nat × String))) := by
    have h := simFrom_split 7560 630 1890 (({ last_daily := "4", last_ceo := "" } : Orch.Scheduler.SchedState), ([(1200, "daily_briefing"), (2640, "daily_briefing"), (4080, "daily_briefing"), (5520, "daily_briefing"), (6960, "daily_briefing")] : List (Nat × String)))
    norm_num at h
    exact h.trans (congrArg (Scheduler.simFrom 8190 1890) (by rfl))
  rw [c13]
  have c14 : Scheduler.simFrom 8190 1890 (({ last_daily := "4", last_ceo := "" } : Orch.Scheduler.SchedState), ([(1200, "daily_briefing"), (2640, "daily_briefing"), (4080, "daily_briefing"), (5520, "daily_briefing"), (6960, "daily_briefing")] : List (Nat × String))) =
      Scheduler.simFrom 8820 1260 (({ last_daily := "5", last_ceo := "" } : Orch.Scheduler.SchedState), ([(1200, "daily_briefing"), (2640, "daily_briefing"), (4080, "daily_briefing"), (5520, "daily_briefing"), (6960, "daily_briefing"), (8400, "daily_briefing")] : List (Nat × String))) := by
    have h := simFrom_split 8190 630 1260 (({ last_daily := "4", last_ceo := "" } : Orch.Scheduler.SchedState), ([(1200, "daily_briefing"), (2640, "daily_briefing"), (4080, "daily_briefing"), (5520, "daily_briefing"), (6960, "daily_briefing")] : List (Nat × String)))
    norm_num at h
    exact h.trans (congrArg (Scheduler.simFrom 8820 1260) (by rfl))
  rw [c14]
  have c15 : Scheduler.simFrom 8820 1260 (({ last_daily := "5", last_ceo := "" } : Orch.Scheduler.SchedState), ([(1200, "daily_briefing"), (2640, "daily_briefing"), (4080, "daily_briefing"), (5520, "daily_briefing"), (6960, "daily_briefing"), (8400, "daily_briefing")] : List (Nat × String))) =
      Scheduler.simFrom 9450 630 (({ last_daily := "5", last_ceo := "" } : Orch.Scheduler.SchedState), ([(1200, "daily_briefing"), (2640, "daily_briefing"), (4080, "daily_briefing"), (5520, "daily_briefing"), (6960, "daily_briefing"), (8400, "daily_briefing")] : List (Nat × String))) := by
    have h := simFrom_split 8820 630 630 (({ last_daily := "5", last_ceo := "" } : Orch.Scheduler.SchedState), ([(1200, "daily_briefing"), (2640, "daily_briefing"), (4080, "daily_briefing"), (5520, "daily_briefing"), (6960, "daily_briefing"), (8400, "daily_briefing")] : List (Nat × String)))
    norm_num at h
    exact h.trans (congrArg (Scheduler.simFrom 9450 630) (by rfl))
  rw [c15]
  have c16 : Scheduler.simFrom 9450 630 (({ last_daily := "5", last_ceo := "" } : Orch.Scheduler.SchedState), ([(1200, "daily_briefing"), (2640, "daily_briefing"), (4080, "daily_briefing"), (5520, "daily_briefing"), (6960, "daily_briefing"), (8400, "daily_briefing")] : List (Nat × String))) = (({ last_daily := "6", last_ceo := "6" } : Orch.Scheduler.SchedState), ([(1200, "daily_briefing"), (2640, "daily_briefing"), (4080, "daily_briefing"), (5520, "daily_briefing"), (6960, "daily_briefing"), (8400, "daily_briefing"), (9840, "ceo_briefing"), (9841, "daily_briefing")] : List (Nat × String))) := by rfl
  rw [c16]

/-- C2: with hour 20 and weekly day Sunday (6), driving `tick` once per
minute across the simulated week, the weekly trigger fires exactly once,
at minute 9840 — the first tick with weekday 6 and hour 20 — the daily
trigger does not fire at that tick (the `elif` suppresses it when the
weekly fires), and the daily trigger fires at hour 20 on every other day
of the week. -/
theorem C2_weekly_fires_once_and_suppresses_daily :
    (Scheduler.simWeekEvents.filter fun e => e.2 == "ceo_briefing") =
      [(9840, "ceo_briefing")]
    ∧ (Scheduler.simClock 9840).weekday = 6 ∧ (Scheduler.simClock 9840).hour = 20
    ∧ (∀ t, t < 9840 → ¬((Scheduler.simClock t).weekday = 6 ∧ (Scheduler.simClock t).hour = 20))
    ∧ (9840, "daily_briefing") ∉ Scheduler.simWeekEvents
    ∧ (∀ d, d < 7 → d ≠ 6 →
        (d * 1440 + 1200, "daily_briefing") ∈ Scheduler.simWeekEvents
        ∧ (Scheduler.simClock (d * 1440 + 1200)).hour = 20
        ∧ (Scheduler.simClock (d * 1440 + 1200)).weekday = d) := by
  have hE := simWeekEvents_eval
  refine ⟨by rw [hE]; rfl, by decide, by decide, ?_, by rw [hE]; decide, ?_⟩
  · intro t ht hcontra
    obtain ⟨hw, hh⟩ := hcontra
    simp only [Scheduler.simClock] at hw hh
    omega
  · intro d hd hne
    rw [hE]
    interval_cases d
    · exact ⟨by decide, by decide, by decide⟩
    · exact ⟨by decide, by decide, by decide⟩
    · exact ⟨by decide, by decide, by decide⟩
    · exact ⟨by decide, by decide, by decide⟩
    · exact ⟨by decide, by decide, by decide⟩
    · exact ⟨by decide, by decide, by decide⟩
    · exact absurd rfl hne

/-- Witness for C2 at concrete ticks: minute 1200 (Monday 20:00) is
before the weekly minute and not weekly-eligible, and the Monday daily
fire is among the simulated events. -/
theorem C2_weekly_fires_once_and_suppresses_daily_witness :
    (1200 < 9840 ∧
      ¬((Scheduler.simClock 1200).weekday = 6 ∧ (Scheduler.simClock 1200).hour = 20))
    ∧ ((0 * 1440 + 1200, "daily_briefing") ∈ Scheduler.simWeekEvents
        ∧ (Scheduler.simClock (0 * 1440 + 1200)).hour = 20
        ∧ (Scheduler.simClock (0 * 1440 + 1200)).weekday = 0) :=
  ⟨⟨by decide,
    C2_weekly_fires_once_and_suppresses_daily.2.2.2.1 1200 (by decide)⟩,
    C2_weekly_fires_once_and_suppresses_daily.2.2.2.2.2 0 (by decide) (by decide)⟩

/-- Witness for C9 amended on a fresh dry-run manager. -/
theorem C9_amended_dry_run_skips_witness :
    (WatcherManager.WMState.init true).dry_run = true
    ∧ WatcherManager.start_watcher (WatcherManager.WMState.init true) "gmail_watcher"
        (.launched 5) = (WatcherManager.WMState.init true, []) :=
  ⟨rfl, (C9_amended_dry_run_skips (WatcherManager.WMState.init true) "gmail_watcher"
    (.launched 5) (.exited 0 "") true { weekday := 0, hour := 0, today := "0" }
    Scheduler.SchedState.init rfl).1⟩

end Orch
